import Mathlib

/-!
Verification of the `PostPage` component (src/src/PostPage.jsx).

The component holds four string state fields (`title`, `content`,
`imageUrl`, `ogImageUrl`), a capture handler that asks an external
rasterizer for a PNG data URI of the preview region and stores the
result in `ogImageUrl` on success (logging to the console on failure),
and a pure render deriving the head metadata and the preview region
from the state.  We embed the state, the event handlers, and the
render functions, and prove the specified properties about them.
-/

namespace PostPage

/-- Component state: the four `useState` string fields declared in
PostPage.jsx lines 7-10.  As in the source, absence of a generated
image is represented by the empty string. -/
structure State where
  title : String
  content : String
  imageUrl : String
  ogImageUrl : String
  deriving Repr, DecidableEq

/-- Initial state on mount: all four fields start as `useState("")`. -/
def initState : State :=
  { title := "", content := "", imageUrl := "", ogImageUrl := "" }

/-- The console-error log.  Each entry records one `console.error`
call with its two arguments (message, error object). -/
def initLog : List (String × String) := []

/-- Outcome of the promise returned by `toPng(postRef.current)`:
it either resolves with a data-URL string or rejects with an error.
The rasterizer is an external black box, so the payloads are
unconstrained strings. -/
inductive CaptureResult where
  | success (dataUrl : String)
  | failure (err : String)
  deriving Repr, DecidableEq

/-- The completion of `handleGenerateOgImage` (PostPage.jsx lines 13-21):
on resolution the `.then` callback runs `setOgImageUrl(dataUrl)`; on
rejection the `.catch` callback runs
`console.error("Error generating image:", err)` and touches no state. -/
def handleGenerateOgImage (r : CaptureResult) (s : State)
    (log : List (String × String)) : State × List (String × String) :=
  match r with
  | CaptureResult.success dataUrl => ({ s with ogImageUrl := dataUrl }, log)
  | CaptureResult.failure err => (s, log ++ [("Error generating image:", err)])

/-- User-visible events: the three `onChange` handlers of the form
controls (lines 37, 42, 48) and the delivery of a capture completion
callback. -/
inductive Event where
  | setTitle (v : String)
  | setContent (v : String)
  | setImageUrl (v : String)
  | captureComplete (r : CaptureResult)
  deriving Repr, DecidableEq

/-- One step of the single-threaded event loop: each `onChange`
handler calls the corresponding `useState` setter with the control's
value; a capture completion runs the promise callbacks. -/
def step (e : Event) (s : State) (log : List (String × String)) :
    State × List (String × String) :=
  match e with
  | Event.setTitle v => ({ s with title := v }, log)
  | Event.setContent v => ({ s with content := v }, log)
  | Event.setImageUrl v => ({ s with imageUrl := v }, log)
  | Event.captureComplete r => handleGenerateOgImage r s log

/-- Run a sequence of events through the event loop. -/
def run (es : List Event) (s : State) (log : List (String × String)) :
    State × List (String × String) :=
  match es with
  | [] => (s, log)
  | e :: rest => run rest (step e s log).1 (step e s log).2

/-- The rendered preview region (the `post-preview` div, lines 52-56):
an `h2` with the title, a `p` with the content, and an `img` element
that is rendered only when `imageUrl` is truthy (non-empty). -/
structure Preview where
  heading : String
  body : String
  img : Option String
  deriving Repr, DecidableEq

/-- Pure render of the preview region from the state, mirroring
`{imageUrl && <img src={imageUrl} alt="Post" />}` (line 55):
the JS short-circuit renders the image exactly when the string is
non-empty. -/
def renderPreview (s : State) : Preview :=
  { heading := s.title, body := s.content,
    img := if s.imageUrl = "" then none else some s.imageUrl }

/-- The region `postRef` points at and that `toPng` rasterizes: the
live rendered preview at invocation time (line 52, `ref={postRef}`). -/
def captureRegion (s : State) : Preview := renderPreview s

/-- The head metadata entries emitted through `Helmet` (lines 26-28):
`{ogImageUrl && <meta property="og:image" content={ogImageUrl} />}`.
The list of (property, content) pairs is recomputed from state on
every render, so entries are replaced rather than appended. -/
def renderHeadMeta (s : State) : List (String × String) :=
  if s.ogImageUrl = "" then [] else [("og:image", s.ogImageUrl)]

/-- The data URI delivered by an event, when the event is a successful
capture completion. -/
def successPayload (e : Event) : Option String :=
  match e with
  | Event.captureComplete (CaptureResult.success d) => some d
  | _ => none

/-- Whether an event is a successful capture completion. -/
def isCaptureSuccess (e : Event) : Bool :=
  (successPayload e).isSome

/-- Whether an event, if it is a successful capture completion,
delivers a non-empty data URI. -/
def successPayloadNonempty (e : Event) : Bool :=
  match successPayload e with
  | some d => decide (d ≠ "")
  | none => true

/-- The payload of the last successful capture completion in an event
sequence, if any. -/
def lastSuccessPayload (es : List Event) : Option String :=
  match es with
  | [] => none
  | e :: rest =>
    match lastSuccessPayload rest with
    | some d => some d
    | none => successPayload e

theorem lastSuccessPayload_cons (e : Event) (rest : List Event) :
    lastSuccessPayload (e :: rest) =
      match lastSuccessPayload rest with
      | some d => some d
      | none => successPayload e := rfl

theorem step_ogImageUrl (e : Event) (s : State) (log : List (String × String)) :
    ((step e s log).1).ogImageUrl = (successPayload e).getD s.ogImageUrl := by
  cases e with
  | setTitle v => rfl
  | setContent v => rfl
  | setImageUrl v => rfl
  | captureComplete r => cases r <;> rfl

theorem run_ogImageUrl (es : List Event) (s : State) (log : List (String × String)) :
    ((run es s log).1).ogImageUrl = (lastSuccessPayload es).getD s.ogImageUrl := by
  induction es generalizing s log with
  | nil => rfl
  | cons e rest ih =>
    show ((run rest (step e s log).1 (step e s log).2).1).ogImageUrl = _
    rw [ih, step_ogImageUrl, lastSuccessPayload_cons]
    cases lastSuccessPayload rest <;> rfl

theorem lastSuccessPayload_eq_none (es : List Event)
    (h : ∀ e ∈ es, isCaptureSuccess e = false) :
    lastSuccessPayload es = none := by
  induction es with
  | nil => rfl
  | cons e rest ih =>
    have he : successPayload e = none := by
      have hm := h e (List.mem_cons_self e rest)
      unfold isCaptureSuccess at hm
      cases hp : successPayload e with
      | none => rfl
      | some d => rw [hp] at hm; simp at hm
    have hr := ih (fun x hx => h x (List.mem_cons_of_mem e hx))
    rw [lastSuccessPayload_cons, hr]
    exact he

theorem lastSuccessPayload_ne_empty (es : List Event)
    (h : ∀ e ∈ es, successPayloadNonempty e = true) :
    ∀ d, lastSuccessPayload es = some d → d ≠ "" := by
  induction es with
  | nil => intro d hd; cases hd
  | cons e rest ih =>
    intro d hd
    rw [lastSuccessPayload_cons] at hd
    cases hr : lastSuccessPayload rest with
    | some d2 =>
      rw [hr] at hd
      injection hd with hdd
      subst hdd
      exact ih (fun x hx => h x (List.mem_cons_of_mem e hx)) d2 hr
    | none =>
      rw [hr] at hd
      have hd2 : successPayload e = some d := hd
      have hne := h e (List.mem_cons_self e rest)
      unfold successPayloadNonempty at hne
      rw [hd2] at hne
      exact of_decide_eq_true hne

/-- Claim C1: when the rasterization promise rejects, the `.catch`
branch of `handleGenerateOgImage` leaves the whole state — in
particular `ogImageUrl`, whatever its prior value — exactly as it was,
and appends the failure to the console-error log; no other effect
occurs. -/
theorem C1_capture_failure (err : String) (s : State)
    (log : List (String × String)) :
    (step (Event.captureComplete (CaptureResult.failure err)) s log).1 = s ∧
    (step (Event.captureComplete (CaptureResult.failure err)) s log).2 =
      log ++ [("Error generating image:", err)] :=
  ⟨rfl, rfl⟩

/-- Claim C2, counterexample: it is not the case that after every
successful capture `ogImageUrl` is non-empty — the handler stores the
delivered data URI unconditionally, so a capture resolving with the
empty string leaves `ogImageUrl` empty. -/
theorem C2_counterexample :
    ¬ (∀ (d : String) (s : State) (log : List (String × String)),
        ((step (Event.captureComplete (CaptureResult.success d)) s log).1).ogImageUrl
          ≠ "") := by
  intro h
  exact h "" initState initLog rfl

/-- Claim C2, amended: a successful capture with data URI `d` sets
`ogImageUrl` to `d`, replacing any prior value, and whenever the
delivered data URI is non-empty, `ogImageUrl` is non-empty
afterwards. -/
theorem C2_capture_success (d : String) (s : State)
    (log : List (String × String)) :
    ((step (Event.captureComplete (CaptureResult.success d)) s log).1).ogImageUrl
        = d ∧
    (d ≠ "" →
      ((step (Event.captureComplete (CaptureResult.success d)) s log).1).ogImageUrl
        ≠ "") := by
  exact ⟨rfl, fun hd => hd⟩

/-- Claim C2, witness: applying the amended theorem at a concrete
non-empty data URI. -/
theorem C2_capture_success_witness :
    ((step (Event.captureComplete (CaptureResult.success "data:png"))
        initState initLog).1).ogImageUrl = "data:png" ∧
    ((step (Event.captureComplete (CaptureResult.success "data:png"))
        initState initLog).1).ogImageUrl ≠ "" :=
  ⟨(C2_capture_success "data:png" initState initLog).1,
   (C2_capture_success "data:png" initState initLog).2 (by decide)⟩

/-- Claim C3: in every rendered state, the Helmet emits no `og:image`
entry when `ogImageUrl` is empty, and exactly the single entry
`("og:image", ogImageUrl)` when it is non-empty — so the entry is
present iff `ogImageUrl` is, there is at most one, and its content is
never stale or empty. -/
theorem C3_head_meta (s : State) :
    (s.ogImageUrl = "" → renderHeadMeta s = []) ∧
    (s.ogImageUrl ≠ "" → renderHeadMeta s = [("og:image", s.ogImageUrl)]) ∧
    (renderHeadMeta s).length ≤ 1 := by
  by_cases h : s.ogImageUrl = "" <;> simp [renderHeadMeta, h]

/-- Claim C3, witness: both branches of the head-metadata contract at
concrete states. -/
theorem C3_head_meta_witness :
    renderHeadMeta initState = [] ∧
    renderHeadMeta { initState with ogImageUrl := "data:png" } =
      [("og:image", "data:png")] :=
  ⟨(C3_head_meta initState).1 rfl,
   (C3_head_meta { initState with ogImageUrl := "data:png" }).2.1 (by decide)⟩

/-- Claim C4, counterexample: it is not the case that once
`ogImageUrl` is present (non-empty) it never returns to absent — a
later successful capture delivering the empty string resets it to the
empty (absent) representation. -/
theorem C4_counterexample :
    ¬ (∀ (es1 es2 : List Event),
        ((run es1 initState initLog).1).ogImageUrl ≠ "" →
        ((run (es1 ++ es2) initState initLog).1).ogImageUrl ≠ "") := by
  intro h
  exact h [Event.captureComplete (CaptureResult.success "data:img")]
    [Event.captureComplete (CaptureResult.success "")] (by decide) rfl

/-- Claim C4, amended: over any event sequence, `ogImageUrl` changes
only as the result of a successful capture completion — no field edit
and no failed capture ever changes it — and, provided every
successful capture in the sequence delivers a non-empty data URI, once
present it never returns to absent. -/
theorem C4_lifecycle (es : List Event) (s : State)
    (log : List (String × String)) :
    ((∀ e ∈ es, isCaptureSuccess e = false) →
      ((run es s log).1).ogImageUrl = s.ogImageUrl) ∧
    ((∀ e ∈ es, successPayloadNonempty e = true) →
      s.ogImageUrl ≠ "" → ((run es s log).1).ogImageUrl ≠ "") := by
  constructor
  · intro h
    rw [run_ogImageUrl, lastSuccessPayload_eq_none es h]
    rfl
  · intro h hne
    rw [run_ogImageUrl]
    cases hd : lastSuccessPayload es with
    | none => exact hne
    | some d => exact lastSuccessPayload_ne_empty es h d hd

/-- Claim C4, witness: a trace of an edit and a failed capture leaves
`ogImageUrl` untouched, and a trace of non-empty successful captures
keeps a present `ogImageUrl` present. -/
theorem C4_lifecycle_witness :
    ((run [Event.setTitle "a",
        Event.captureComplete (CaptureResult.failure "err")]
      initState initLog).1).ogImageUrl = initState.ogImageUrl ∧
    ((run [Event.captureComplete (CaptureResult.success "data:new")]
      { initState with ogImageUrl := "data:old" } initLog).1).ogImageUrl ≠ "" :=
  ⟨(C4_lifecycle [Event.setTitle "a",
      Event.captureComplete (CaptureResult.failure "err")]
      initState initLog).1 (by decide),
   (C4_lifecycle [Event.captureComplete (CaptureResult.success "data:new")]
      { initState with ogImageUrl := "data:old" } initLog).2
      (by decide) (by decide)⟩

/-- Claim C5: in every rendered state, the preview region contains an
image element iff `imageUrl` is non-empty; in particular the region
handed to the rasterizer contains no image element when `imageUrl` is
the empty string. -/
theorem C5_preview_image (s : State) :
    (((renderPreview s).img).isSome = true ↔ s.imageUrl ≠ "") ∧
    (s.imageUrl = "" → (captureRegion s).img = none) := by
  by_cases h : s.imageUrl = "" <;> simp [renderPreview, captureRegion, h]

/-- Claim C5, witness: at the initial state (`imageUrl` empty) the
captured region has no image element. -/
theorem C5_preview_image_witness :
    (((renderPreview initState).img).isSome = true ↔ initState.imageUrl ≠ "") ∧
    (captureRegion initState).img = none :=
  ⟨(C5_preview_image initState).1, (C5_preview_image initState).2 rfl⟩

/-- Claim C6: completion callbacks are serialized on the single event
loop; running any sequence of events always produces a final
configuration (no crash), and when the sequence contains successful
capture completions, the final `ogImageUrl` equals the data URI of
whichever successful completion fired last (last-write-wins). -/
theorem C6_last_write_wins (es : List Event) (s : State)
    (log : List (String × String)) (d : String)
    (h : lastSuccessPayload es = some d) :
    (∃ out, run es s log = out) ∧ ((run es s log).1).ogImageUrl = d := by
  refine ⟨⟨run es s log, rfl⟩, ?_⟩
  rw [run_ogImageUrl, h]
  rfl

/-- Claim C6, witness: two overlapping captures completing in order;
the later completion's data URI wins. -/
theorem C6_last_write_wins_witness :
    lastSuccessPayload [Event.captureComplete (CaptureResult.success "data:a"),
      Event.captureComplete (CaptureResult.success "data:b")] = some "data:b" ∧
    ((run [Event.captureComplete (CaptureResult.success "data:a"),
        Event.captureComplete (CaptureResult.success "data:b")]
      initState initLog).1).ogImageUrl = "data:b" :=
  ⟨rfl,
   (C6_last_write_wins
      [Event.captureComplete (CaptureResult.success "data:a"),
        Event.captureComplete (CaptureResult.success "data:b")]
      initState initLog "data:b" rfl).2⟩

/-- Claim C7: each edit event synchronously replaces exactly its own
field with the event's value and leaves the other two editable fields,
`ogImageUrl`, and the console log unchanged — no side effect beyond
the one local state mutation. -/
theorem C7_edit_events (v : String) (s : State)
    (log : List (String × String)) :
    ((step (Event.setTitle v) s log).1.title = v ∧
      (step (Event.setTitle v) s log).1.content = s.content ∧
      (step (Event.setTitle v) s log).1.imageUrl = s.imageUrl ∧
      (step (Event.setTitle v) s log).1.ogImageUrl = s.ogImageUrl ∧
      (step (Event.setTitle v) s log).2 = log) ∧
    ((step (Event.setContent v) s log).1.content = v ∧
      (step (Event.setContent v) s log).1.title = s.title ∧
      (step (Event.setContent v) s log).1.imageUrl = s.imageUrl ∧
      (step (Event.setContent v) s log).1.ogImageUrl = s.ogImageUrl ∧
      (step (Event.setContent v) s log).2 = log) ∧
    ((step (Event.setImageUrl v) s log).1.imageUrl = v ∧
      (step (Event.setImageUrl v) s log).1.title = s.title ∧
      (step (Event.setImageUrl v) s log).1.content = s.content ∧
      (step (Event.setImageUrl v) s log).1.ogImageUrl = s.ogImageUrl ∧
      (step (Event.setImageUrl v) s log).2 = log) :=
  ⟨⟨rfl, rfl, rfl, rfl, rfl⟩, ⟨rfl, rfl, rfl, rfl, rfl⟩,
    ⟨rfl, rfl, rfl, rfl, rfl⟩⟩

/-- Claim C8: on mount all four state fields initialize to the empty
string (so `ogImageUrl` is absent) and the console log is empty. -/
theorem C8_initial_state :
    initState.title = "" ∧ initState.content = "" ∧
    initState.imageUrl = "" ∧ initState.ogImageUrl = "" ∧ initLog = [] :=
  ⟨rfl, rfl, rfl, rfl, rfl⟩

/-- Claim C9: for every capture completion, success or failure, the
fields `title`, `content`, and `imageUrl` are left unchanged — the
handler's only possible state mutation is to `ogImageUrl`. -/
theorem C9_capture_frame (r : CaptureResult) (s : State)
    (log : List (String × String)) :
    ((step (Event.captureComplete r) s log).1).title = s.title ∧
    ((step (Event.captureComplete r) s log).1).content = s.content ∧
    ((step (Event.captureComplete r) s log).1).imageUrl = s.imageUrl := by
  cases r <;> exact ⟨rfl, rfl, rfl⟩

/-- Claim C10: absence of `ogImageUrl` is represented by the empty
string (the mount value), both the head entry and the preview image
are gated on string truthiness, a capture resolving with the empty
string sets `ogImageUrl` to the empty string with no `og:image` entry
emitted, and a state whose `ogImageUrl` is the empty string is
indistinguishable in the head from the absent (initial) one. -/
theorem C10_empty_is_absent (s : State) (log : List (String × String)) :
    initState.ogImageUrl = "" ∧
    ((step (Event.captureComplete (CaptureResult.success "")) s log).1).ogImageUrl
      = "" ∧
    renderHeadMeta
      ((step (Event.captureComplete (CaptureResult.success "")) s log).1) = [] ∧
    (renderHeadMeta s = [] ↔ s.ogImageUrl = "") ∧
    ((renderPreview s).img = none ↔ s.imageUrl = "") ∧
    (s.ogImageUrl = "" → renderHeadMeta s = renderHeadMeta initState) := by
  refine ⟨rfl, rfl, ?_, ?_, ?_, ?_⟩
  · simp [step, handleGenerateOgImage, renderHeadMeta]
  · by_cases h : s.ogImageUrl = "" <;> simp [renderHeadMeta, h]
  · by_cases h : s.imageUrl = "" <;> simp [renderPreview, h]
  · intro h
    simp [renderHeadMeta, h, initState]

/-- Claim C10, witness: a capture resolving with the empty string over
a previously present reference, and head-metadata agreement with the
absent state. -/
theorem C10_empty_is_absent_witness :
    ((step (Event.captureComplete (CaptureResult.success ""))
        { initState with ogImageUrl := "data:old" } initLog).1).ogImageUrl = "" ∧
    renderHeadMeta { initState with title := "t" } = renderHeadMeta initState :=
  ⟨(C10_empty_is_absent { initState with ogImageUrl := "data:old" } initLog).2.1,
   (C10_empty_is_absent { initState with title := "t" } initLog).2.2.2.2.2 rfl⟩

end PostPage
